import Mathlib

/-!
Verification of the INB (incremental net benefit) formula library.

The source library (`utilities/inb_utils.py`) defines six pure functions
computing the incremental net benefit of diagnostic testing strategies
(single test, dual/triple conjunctive, dual/triple disjunctive, triple
majority).  Each function computes an expected sequential test cost
`kappa` and a benefit scale `b = lam*q_g - c_Rx`, then evaluates one of
two piecewise branch expressions depending on whether the probability of
illness `p` lies below or above the treatment threshold `p_Rx`.

We embed the functions over exact rationals.  A Python call has three
observable outcomes, which we model with `PyVal`:
  * a returned float value (`PyVal.val`),
  * a silent `None` return when neither branch condition matches
    (`PyVal.retNone`),
  * a `ZeroDivisionError` raised when a branch body divides by
    `1 - p_Rx = 0` (`PyVal.zeroDiv`); Python float division by zero
    raises rather than producing `inf`/`NaN`.
-/

/-- Outcome of calling one of the Python formula functions: a returned
float, a silent `None` (no branch matched), or a `ZeroDivisionError`
raised by the division `p_Rx / (1 - p_Rx)`. -/
inductive PyVal where
  | val : ℚ → PyVal
  | retNone : PyVal
  | zeroDiv : PyVal
  deriving DecidableEq, Repr

/-- The rational carried by a `PyVal.val`, defaulting to `0` otherwise. -/
def PyVal.q : PyVal → ℚ
  | .val x => x
  | .retNone => 0
  | .zeroDiv => 0

/-- Single-test incremental net benefit, from `inb_utils.INB`:
`kappa = c_Dx + lam*h_Dx`, `b = lam*q_g - c_Rx`, then the two-branch
piecewise expression. -/
def INB (p lam q_g c_Rx c_Dx h_Dx Se Sp p_Rx : ℚ) : PyVal :=
  let kappa := c_Dx + lam * h_Dx
  let b := lam * q_g - c_Rx
  if 0 ≤ p ∧ p < p_Rx then
    if 1 - p_Rx = 0 then .zeroDiv else
    .val (b * (p * Se - (1 - p) * (1 - Sp) * p_Rx / (1 - p_Rx)) - kappa)
  else if p_Rx ≤ p ∧ p ≤ 1 then
    if 1 - p_Rx = 0 then .zeroDiv else
    .val (b * (-p * (1 - Se) + (1 - p) * Sp * p_Rx / (1 - p_Rx)) - kappa)
  else .retNone

/-- Two-test conjunctive INB, from `inb_utils.INB_i_j_c`. -/
def INB_i_j_c (p lam q_g c_Rx c_Dx_i c_Dx_j h_Dx_i h_Dx_j Se_i Se_j Sp_i Sp_j p_Rx : ℚ) :
    PyVal :=
  let kappa := c_Dx_i + lam * h_Dx_i +
    (p * Se_i + (1 - p) * (1 - Sp_i)) * (c_Dx_j + lam * h_Dx_j)
  let b := lam * q_g - c_Rx
  if 0 ≤ p ∧ p < p_Rx then
    if 1 - p_Rx = 0 then .zeroDiv else
    .val (-kappa + b * (p * Se_i * Se_j -
      (1 - p) * (1 - Sp_i) * (1 - Sp_j) * p_Rx / (1 - p_Rx)))
  else if p_Rx ≤ p ∧ p ≤ 1 then
    if 1 - p_Rx = 0 then .zeroDiv else
    .val (-kappa + b * (-p * (1 - Se_i * Se_j) +
      (1 - p) * (1 - (1 - Sp_i) * (1 - Sp_j)) * p_Rx / (1 - p_Rx)))
  else .retNone

/-- Three-test conjunctive INB, from `inb_utils.INB_i_j_k_c`. -/
def INB_i_j_k_c (p lam q_g c_Rx c_Dx_i c_Dx_j c_Dx_k h_Dx_i h_Dx_j h_Dx_k
    Se_i Se_j Se_k Sp_i Sp_j Sp_k p_Rx : ℚ) : PyVal :=
  let kappa := c_Dx_i + lam * h_Dx_i +
    (p * Se_i + (1 - p) * (1 - Sp_i)) * (c_Dx_j + lam * h_Dx_j) +
    (p * Se_i * Se_j + (1 - p) * (1 - Sp_i) * (1 - Sp_j)) * (c_Dx_k + lam * h_Dx_k)
  let b := lam * q_g - c_Rx
  if 0 ≤ p ∧ p < p_Rx then
    if 1 - p_Rx = 0 then .zeroDiv else
    .val (-kappa + b * (p * Se_i * Se_j * Se_k -
      (1 - p) * (1 - Sp_i) * (1 - Sp_j) * (1 - Sp_k) * p_Rx / (1 - p_Rx)))
  else if p_Rx ≤ p ∧ p ≤ 1 then
    if 1 - p_Rx = 0 then .zeroDiv else
    .val (-kappa + b * (-p * (1 - Se_i * Se_j * Se_k) +
      (1 - p) * (1 - (1 - Sp_i) * (1 - Sp_j) * (1 - Sp_k)) * p_Rx / (1 - p_Rx)))
  else .retNone

/-- Two-test disjunctive INB, from `inb_utils.INB_i_j_d`. -/
def INB_i_j_d (p lam q_g c_Rx c_Dx_i c_Dx_j h_Dx_i h_Dx_j Se_i Se_j Sp_i Sp_j p_Rx : ℚ) :
    PyVal :=
  let kappa := c_Dx_i + lam * h_Dx_i +
    (p * (1 - Se_i) + (1 - p) * Sp_i) * (c_Dx_j + lam * h_Dx_j)
  let b := lam * q_g - c_Rx
  if 0 ≤ p ∧ p < p_Rx then
    if 1 - p_Rx = 0 then .zeroDiv else
    .val (-kappa + b * (p * (1 - (1 - Se_i) * (1 - Se_j)) -
      (1 - p) * (1 - Sp_i * Sp_j) * p_Rx / (1 - p_Rx)))
  else if p_Rx ≤ p ∧ p ≤ 1 then
    if 1 - p_Rx = 0 then .zeroDiv else
    .val (-kappa + b * (-p * (1 - Se_i) * (1 - Se_j) +
      (1 - p) * Sp_i * Sp_j * p_Rx / (1 - p_Rx)))
  else .retNone

/-- Three-test disjunctive INB, from `inb_utils.INB_i_j_k_d`. -/
def INB_i_j_k_d (p lam q_g c_Rx c_Dx_i c_Dx_j c_Dx_k h_Dx_i h_Dx_j h_Dx_k
    Se_i Se_j Se_k Sp_i Sp_j Sp_k p_Rx : ℚ) : PyVal :=
  let kappa := c_Dx_i + lam * h_Dx_i +
    (p * (1 - Se_i) + (1 - p) * Sp_i) * (c_Dx_j + lam * h_Dx_j) +
    (p * (1 - Se_i) * (1 - Se_j) + (1 - p) * Sp_i * Sp_j) * (c_Dx_k + lam * h_Dx_k)
  let b := lam * q_g - c_Rx
  if 0 ≤ p ∧ p < p_Rx then
    if 1 - p_Rx = 0 then .zeroDiv else
    .val (-kappa + b * (p * (1 - (1 - Se_i) * (1 - Se_j) * (1 - Se_k)) -
      (1 - p) * (1 - Sp_i * Sp_j * Sp_k) * p_Rx / (1 - p_Rx)))
  else if p_Rx ≤ p ∧ p ≤ 1 then
    if 1 - p_Rx = 0 then .zeroDiv else
    .val (-kappa + b * (-p * (1 - Se_i) * (1 - Se_j) * (1 - Se_k) +
      (1 - p) * Sp_i * Sp_j * Sp_k * p_Rx / (1 - p_Rx)))
  else .retNone

/-- Three-test majority-rule INB, from `inb_utils.INB_i_j_k_M`. -/
def INB_i_j_k_M (p lam q_g c_Rx c_Dx_i c_Dx_j c_Dx_k h_Dx_i h_Dx_j h_Dx_k
    Se_i Se_j Se_k Sp_i Sp_j Sp_k p_Rx : ℚ) : PyVal :=
  let kappa := c_Dx_i + lam * h_Dx_i + c_Dx_j + lam * h_Dx_j +
    (p * Se_i * (1 - Se_j) + p * (1 - Se_i) * Se_j +
     (1 - p) * Sp_i * (1 - Sp_j) + (1 - p) * (1 - Sp_i) * Sp_j) * (c_Dx_k + lam * h_Dx_k)
  let b := lam * q_g - c_Rx
  if 0 ≤ p ∧ p < p_Rx then
    if 1 - p_Rx = 0 then .zeroDiv else
    .val (-kappa + b * (p * (Se_i * Se_j + Se_i * Se_k + Se_j * Se_k -
        2 * Se_i * Se_j * Se_k) -
      (1 - p) * (1 - Sp_i * Sp_j - Sp_i * Sp_k - Sp_j * Sp_k +
        2 * Sp_i * Sp_j * Sp_k) * p_Rx / (1 - p_Rx)))
  else if p_Rx ≤ p ∧ p ≤ 1 then
    if 1 - p_Rx = 0 then .zeroDiv else
    .val (-kappa + b * (-p * (1 - Se_i * Se_j - Se_i * Se_k - Se_j * Se_k +
        2 * Se_i * Se_j * Se_k) +
      (1 - p) * (Sp_i * Sp_j + Sp_i * Sp_k + Sp_j * Sp_k -
        2 * Sp_i * Sp_j * Sp_k) * p_Rx / (1 - p_Rx)))
  else .retNone

/-- C1: on `0 ≤ p < p_Rx` the single-test `INB` returns
`b*(p*Se - (1-p)*(1-Sp)*p_Rx/(1-p_Rx)) - kappa`, and on `p_Rx ≤ p ≤ 1`
it returns `b*(-p*(1-Se) + (1-p)*Sp*p_Rx/(1-p_Rx)) - kappa`, where
`kappa = c_Dx + lam*h_Dx` and `b = lam*q_g - c_Rx`, for `p_Rx ∈ (0,1)`. -/
theorem INB_piecewise_form (p lam q_g c_Rx c_Dx h_Dx Se Sp p_Rx : ℚ)
    (hRx0 : 0 < p_Rx) (hRx1 : p_Rx < 1) :
    (0 ≤ p ∧ p < p_Rx →
      INB p lam q_g c_Rx c_Dx h_Dx Se Sp p_Rx =
        PyVal.val ((lam * q_g - c_Rx) *
          (p * Se - (1 - p) * (1 - Sp) * p_Rx / (1 - p_Rx)) -
          (c_Dx + lam * h_Dx))) ∧
    (p_Rx ≤ p ∧ p ≤ 1 →
      INB p lam q_g c_Rx c_Dx h_Dx Se Sp p_Rx =
        PyVal.val ((lam * q_g - c_Rx) *
          (-p * (1 - Se) + (1 - p) * Sp * p_Rx / (1 - p_Rx)) -
          (c_Dx + lam * h_Dx))) := by
  have hne : ¬ (1 - p_Rx = 0) := by intro h; linarith
  constructor
  · intro hlo
    simp only [INB, if_pos hlo, if_neg hne]
  · intro hhi
    have hnotlo : ¬ (0 ≤ p ∧ p < p_Rx) := by
      rintro ⟨-, hlt⟩; have := hhi.1; linarith
    simp only [INB, if_neg hnotlo, if_pos hhi, if_neg hne]

/-- Witness for C1: concrete evaluation in each branch at
`p = 1/4` and `p = 3/4` with `p_Rx = 1/2`. -/
theorem INB_piecewise_form_witness :
    INB (1/4) (9/10) (9/10) (1/20) (1/10) (1/100) (4/5) (4/5) (1/2) =
      PyVal.val ((9/10 * (9/10) - 1/20) *
        (1/4 * (4/5) - (1 - 1/4) * (1 - 4/5) * (1/2) / (1 - 1/2)) -
        (1/10 + 9/10 * (1/100))) ∧
    INB (3/4) (9/10) (9/10) (1/20) (1/10) (1/100) (4/5) (4/5) (1/2) =
      PyVal.val ((9/10 * (9/10) - 1/20) *
        (-(3/4) * (1 - 4/5) + (1 - 3/4) * (4/5) * (1/2) / (1 - 1/2)) -
        (1/10 + 9/10 * (1/100))) := by
  constructor
  · exact (INB_piecewise_form (1/4) (9/10) (9/10) (1/20) (1/10) (1/100)
      (4/5) (4/5) (1/2) (by norm_num) (by norm_num)).1 (by norm_num)
  · exact (INB_piecewise_form (3/4) (9/10) (9/10) (1/20) (1/10) (1/100)
      (4/5) (4/5) (1/2) (by norm_num) (by norm_num)).2 (by norm_num)

/-- Modelled from the spec: the repository imports `utilities/inb_d_b_utils.py`
(parameterization A, cost-normalized), whose source file is not present;
section 4.A gives the single-test contract verbatim.  Same branch and
division-by-zero structure as the explicit parameterization. -/
def INB_d_b (p c Se Sp p_Rx : ℚ) : PyVal :=
  if 0 ≤ p ∧ p < p_Rx then
    if 1 - p_Rx = 0 then .zeroDiv else
    .val (p * Se - (1 - p) * (1 - Sp) * p_Rx / (1 - p_Rx) - c)
  else if p_Rx ≤ p ∧ p ≤ 1 then
    if 1 - p_Rx = 0 then .zeroDiv else
    .val (-p * (1 - Se) + (1 - p) * Sp * p_Rx / (1 - p_Rx) - c)
  else .retNone

/-- Modelled from the spec: two-test conjunctive function of the missing
`inb_d_b_utils.py`, per section 4.A — `kappa = c_i + (p*Se_i +
(1-p)*(1-Sp_i))*c_j`, body is the single-test form with `Se` the product
of sensitivities and `1 - Sp` the product of the `1 - Sp_t`. -/
def INB_d_b_i_j_c (p c_i c_j Se_i Se_j Sp_i Sp_j p_Rx : ℚ) : PyVal :=
  let kappa := c_i + (p * Se_i + (1 - p) * (1 - Sp_i)) * c_j
  if 0 ≤ p ∧ p < p_Rx then
    if 1 - p_Rx = 0 then .zeroDiv else
    .val (p * Se_i * Se_j -
      (1 - p) * (1 - Sp_i) * (1 - Sp_j) * p_Rx / (1 - p_Rx) - kappa)
  else if p_Rx ≤ p ∧ p ≤ 1 then
    if 1 - p_Rx = 0 then .zeroDiv else
    .val (-p * (1 - Se_i * Se_j) +
      (1 - p) * (1 - (1 - Sp_i) * (1 - Sp_j)) * p_Rx / (1 - p_Rx) - kappa)
  else .retNone

/-- Modelled from the spec: three-test conjunctive function of the missing
`inb_d_b_utils.py`, per section 4.A — the kappa accrual adds a third term
weighted by the joint probability that both prior tests are positive. -/
def INB_d_b_i_j_k_c (p c_i c_j c_k Se_i Se_j Se_k Sp_i Sp_j Sp_k p_Rx : ℚ) : PyVal :=
  let kappa := c_i + (p * Se_i + (1 - p) * (1 - Sp_i)) * c_j +
    (p * Se_i * Se_j + (1 - p) * (1 - Sp_i) * (1 - Sp_j)) * c_k
  if 0 ≤ p ∧ p < p_Rx then
    if 1 - p_Rx = 0 then .zeroDiv else
    .val (p * Se_i * Se_j * Se_k -
      (1 - p) * (1 - Sp_i) * (1 - Sp_j) * (1 - Sp_k) * p_Rx / (1 - p_Rx) - kappa)
  else if p_Rx ≤ p ∧ p ≤ 1 then
    if 1 - p_Rx = 0 then .zeroDiv else
    .val (-p * (1 - Se_i * Se_j * Se_k) +
      (1 - p) * (1 - (1 - Sp_i) * (1 - Sp_j) * (1 - Sp_k)) * p_Rx / (1 - p_Rx) - kappa)
  else .retNone

/-- Modelled from the spec: two-test disjunctive function of the missing
`inb_d_b_utils.py`, per section 4.A — kappa accrues the second test's
cost weighted by the probability the first test was negative; effective
sensitivity `1-(1-Se_i)*(1-Se_j)`, effective specificity `Sp_i*Sp_j`. -/
def INB_d_b_i_j_d (p c_i c_j Se_i Se_j Sp_i Sp_j p_Rx : ℚ) : PyVal :=
  let kappa := c_i + (p * (1 - Se_i) + (1 - p) * Sp_i) * c_j
  if 0 ≤ p ∧ p < p_Rx then
    if 1 - p_Rx = 0 then .zeroDiv else
    .val (p * (1 - (1 - Se_i) * (1 - Se_j)) -
      (1 - p) * (1 - Sp_i * Sp_j) * p_Rx / (1 - p_Rx) - kappa)
  else if p_Rx ≤ p ∧ p ≤ 1 then
    if 1 - p_Rx = 0 then .zeroDiv else
    .val (-p * (1 - Se_i) * (1 - Se_j) +
      (1 - p) * Sp_i * Sp_j * p_Rx / (1 - p_Rx) - kappa)
  else .retNone

/-- Modelled from the spec: three-test disjunctive function of the missing
`inb_d_b_utils.py`, per section 4.A — the kappa accrual adds a third term
weighted by the joint probability that both prior tests are negative. -/
def INB_d_b_i_j_k_d (p c_i c_j c_k Se_i Se_j Se_k Sp_i Sp_j Sp_k p_Rx : ℚ) : PyVal :=
  let kappa := c_i + (p * (1 - Se_i) + (1 - p) * Sp_i) * c_j +
    (p * (1 - Se_i) * (1 - Se_j) + (1 - p) * Sp_i * Sp_j) * c_k
  if 0 ≤ p ∧ p < p_Rx then
    if 1 - p_Rx = 0 then .zeroDiv else
    .val (p * (1 - (1 - Se_i) * (1 - Se_j) * (1 - Se_k)) -
      (1 - p) * (1 - Sp_i * Sp_j * Sp_k) * p_Rx / (1 - p_Rx) - kappa)
  else if p_Rx ≤ p ∧ p ≤ 1 then
    if 1 - p_Rx = 0 then .zeroDiv else
    .val (-p * (1 - Se_i) * (1 - Se_j) * (1 - Se_k) +
      (1 - p) * Sp_i * Sp_j * Sp_k * p_Rx / (1 - p_Rx) - kappa)
  else .retNone

/-- Modelled from the spec: three-test majority function of the missing
`inb_d_b_utils.py`, per section 4.A — majority-of-three effective rates
`Se_i*Se_j + Se_i*Se_k + Se_j*Se_k - 2*Se_i*Se_j*Se_k` (and the Sp
analog); kappa charges the third test only when the first two disagree. -/
def INB_d_b_i_j_k_M (p c_i c_j c_k Se_i Se_j Se_k Sp_i Sp_j Sp_k p_Rx : ℚ) : PyVal :=
  let kappa := c_i + c_j +
    (p * (Se_i * (1 - Se_j) + (1 - Se_i) * Se_j) +
     (1 - p) * (Sp_i * (1 - Sp_j) + (1 - Sp_i) * Sp_j)) * c_k
  if 0 ≤ p ∧ p < p_Rx then
    if 1 - p_Rx = 0 then .zeroDiv else
    .val (p * (Se_i * Se_j + Se_i * Se_k + Se_j * Se_k - 2 * Se_i * Se_j * Se_k) -
      (1 - p) * (1 - (Sp_i * Sp_j + Sp_i * Sp_k + Sp_j * Sp_k -
        2 * Sp_i * Sp_j * Sp_k)) * p_Rx / (1 - p_Rx) - kappa)
  else if p_Rx ≤ p ∧ p ≤ 1 then
    if 1 - p_Rx = 0 then .zeroDiv else
    .val (-p * (1 - (Se_i * Se_j + Se_i * Se_k + Se_j * Se_k -
        2 * Se_i * Se_j * Se_k)) +
      (1 - p) * (Sp_i * Sp_j + Sp_i * Sp_k + Sp_j * Sp_k -
        2 * Sp_i * Sp_j * Sp_k) * p_Rx / (1 - p_Rx) - kappa)
  else .retNone

/-- Counterexample for C2: with `lam = 0, q_g = 1, c_Rx = 0` the benefit
scale is `b = 0*1 - 0 = 0`, not `1`, and the explicit-parameter `INB`
does not reduce to the cost-normalized `INB_d_b`: at `p = 0`,
`c_Dx = 1/10`, `h_Dx = 0`, `Se = Sp = 4/5`, `p_Rx = 1/2` the left side
returns `-1/10` while `INB_d_b` returns `-3/10`. -/
theorem INB_reduction_lam_zero_fails :
    INB 0 0 1 0 (1/10) 0 (4/5) (4/5) (1/2) = PyVal.val (-(1/10)) ∧
    INB_d_b 0 (1/10) (4/5) (4/5) (1/2) = PyVal.val (-(3/10)) ∧
    INB 0 0 1 0 (1/10) 0 (4/5) (4/5) (1/2) ≠
      INB_d_b 0 (1/10) (4/5) (4/5) (1/2) := by
  have h1 : INB 0 0 1 0 (1/10) 0 (4/5) (4/5) (1/2) = PyVal.val (-(1/10)) := by
    simp only [INB]
    rw [if_pos (by norm_num), if_neg (by norm_num)]
    norm_num
  have h2 : INB_d_b 0 (1/10) (4/5) (4/5) (1/2) = PyVal.val (-(3/10)) := by
    simp only [INB_d_b]
    rw [if_pos (by norm_num), if_neg (by norm_num)]
    norm_num
  refine ⟨h1, h2, ?_⟩
  rw [h1, h2]
  intro h
  have := PyVal.val.inj h
  norm_num at this

/-- C2 (amended): the explicit parameterization strictly generalizes the
cost-normalized one under `lam = 1, q_g = 1, c_Rx = 0` (so `b = 1`) and
`h_Dx_t = 0`: each of the six explicit functions then coincides with the
corresponding cost-normalized function with `c_Dx_t_d_b = c_Dx_t`, at
every input. -/
theorem INB_reduction_to_cost_normalized :
    (∀ p c Se Sp p_Rx : ℚ,
      INB p 1 1 0 c 0 Se Sp p_Rx = INB_d_b p c Se Sp p_Rx) ∧
    (∀ p c_i c_j Se_i Se_j Sp_i Sp_j p_Rx : ℚ,
      INB_i_j_c p 1 1 0 c_i c_j 0 0 Se_i Se_j Sp_i Sp_j p_Rx =
        INB_d_b_i_j_c p c_i c_j Se_i Se_j Sp_i Sp_j p_Rx) ∧
    (∀ p c_i c_j Se_i Se_j Sp_i Sp_j p_Rx : ℚ,
      INB_i_j_d p 1 1 0 c_i c_j 0 0 Se_i Se_j Sp_i Sp_j p_Rx =
        INB_d_b_i_j_d p c_i c_j Se_i Se_j Sp_i Sp_j p_Rx) ∧
    (∀ p c_i c_j c_k Se_i Se_j Se_k Sp_i Sp_j Sp_k p_Rx : ℚ,
      INB_i_j_k_c p 1 1 0 c_i c_j c_k 0 0 0 Se_i Se_j Se_k Sp_i Sp_j Sp_k p_Rx =
        INB_d_b_i_j_k_c p c_i c_j c_k Se_i Se_j Se_k Sp_i Sp_j Sp_k p_Rx) ∧
    (∀ p c_i c_j c_k Se_i Se_j Se_k Sp_i Sp_j Sp_k p_Rx : ℚ,
      INB_i_j_k_d p 1 1 0 c_i c_j c_k 0 0 0 Se_i Se_j Se_k Sp_i Sp_j Sp_k p_Rx =
        INB_d_b_i_j_k_d p c_i c_j c_k Se_i Se_j Se_k Sp_i Sp_j Sp_k p_Rx) ∧
    (∀ p c_i c_j c_k Se_i Se_j Se_k Sp_i Sp_j Sp_k p_Rx : ℚ,
      INB_i_j_k_M p 1 1 0 c_i c_j c_k 0 0 0 Se_i Se_j Se_k Sp_i Sp_j Sp_k p_Rx =
        INB_d_b_i_j_k_M p c_i c_j c_k Se_i Se_j Se_k Sp_i Sp_j Sp_k p_Rx) := by
  refine ⟨?_, ?_, ?_, ?_, ?_, ?_⟩ <;>
  · intros
    simp only [INB, INB_d_b, INB_i_j_c, INB_d_b_i_j_c, INB_i_j_d, INB_d_b_i_j_d,
      INB_i_j_k_c, INB_d_b_i_j_k_c, INB_i_j_k_d, INB_d_b_i_j_k_d,
      INB_i_j_k_M, INB_d_b_i_j_k_M]
    split_ifs <;> first
      | rfl
      | (congr 1; ring)

/-- The two-test conjunctive function equals the single-test function at
the effective sensitivity `Se_i*Se_j`, effective specificity
`1-(1-Sp_i)*(1-Sp_j)`, and expected sequential cost in place of the unit
cost. -/
theorem INB_i_j_c_eq (p lam q_g c_Rx c_i c_j h_i h_j Se_i Se_j Sp_i Sp_j p_Rx : ℚ) :
    INB_i_j_c p lam q_g c_Rx c_i c_j h_i h_j Se_i Se_j Sp_i Sp_j p_Rx =
      INB p lam q_g c_Rx
        (c_i + lam * h_i + (p * Se_i + (1 - p) * (1 - Sp_i)) * (c_j + lam * h_j))
        0 (Se_i * Se_j) (1 - (1 - Sp_i) * (1 - Sp_j)) p_Rx := by
  simp only [INB, INB_i_j_c]
  split_ifs <;> first
    | rfl
    | (congr 1; ring)

/-- The three-test conjunctive function equals the single-test function
at the product sensitivities/complement-specificities and the three-term
expected sequential cost. -/
theorem INB_i_j_k_c_eq
    (p lam q_g c_Rx c_i c_j c_k h_i h_j h_k Se_i Se_j Se_k Sp_i Sp_j Sp_k p_Rx : ℚ) :
    INB_i_j_k_c p lam q_g c_Rx c_i c_j c_k h_i h_j h_k
        Se_i Se_j Se_k Sp_i Sp_j Sp_k p_Rx =
      INB p lam q_g c_Rx
        (c_i + lam * h_i + (p * Se_i + (1 - p) * (1 - Sp_i)) * (c_j + lam * h_j) +
         (p * Se_i * Se_j + (1 - p) * (1 - Sp_i) * (1 - Sp_j)) * (c_k + lam * h_k))
        0 (Se_i * Se_j * Se_k)
        (1 - (1 - Sp_i) * (1 - Sp_j) * (1 - Sp_k)) p_Rx := by
  simp only [INB, INB_i_j_k_c]
  split_ifs <;> first
    | rfl
    | (congr 1; ring)

/-- The two-test disjunctive function equals the single-test function at
effective sensitivity `1-(1-Se_i)*(1-Se_j)`, effective specificity
`Sp_i*Sp_j`, and the negative-weighted sequential cost. -/
theorem INB_i_j_d_eq (p lam q_g c_Rx c_i c_j h_i h_j Se_i Se_j Sp_i Sp_j p_Rx : ℚ) :
    INB_i_j_d p lam q_g c_Rx c_i c_j h_i h_j Se_i Se_j Sp_i Sp_j p_Rx =
      INB p lam q_g c_Rx
        (c_i + lam * h_i + (p * (1 - Se_i) + (1 - p) * Sp_i) * (c_j + lam * h_j))
        0 (1 - (1 - Se_i) * (1 - Se_j)) (Sp_i * Sp_j) p_Rx := by
  simp only [INB, INB_i_j_d]
  split_ifs <;> first
    | rfl
    | (congr 1; ring)

/-- The three-test disjunctive function equals the single-test function
at the OR-rule effective rates and three-term sequential cost. -/
theorem INB_i_j_k_d_eq
    (p lam q_g c_Rx c_i c_j c_k h_i h_j h_k Se_i Se_j Se_k Sp_i Sp_j Sp_k p_Rx : ℚ) :
    INB_i_j_k_d p lam q_g c_Rx c_i c_j c_k h_i h_j h_k
        Se_i Se_j Se_k Sp_i Sp_j Sp_k p_Rx =
      INB p lam q_g c_Rx
        (c_i + lam * h_i + (p * (1 - Se_i) + (1 - p) * Sp_i) * (c_j + lam * h_j) +
         (p * (1 - Se_i) * (1 - Se_j) + (1 - p) * Sp_i * Sp_j) * (c_k + lam * h_k))
        0 (1 - (1 - Se_i) * (1 - Se_j) * (1 - Se_k)) (Sp_i * Sp_j * Sp_k) p_Rx := by
  simp only [INB, INB_i_j_k_d]
  split_ifs <;> first
    | rfl
    | (congr 1; ring)

/-- The majority-rule function equals the single-test function at the
majority-of-three effective rates, with the third test's cost weighted
by the probability the first two tests disagree. -/
theorem INB_i_j_k_M_eq
    (p lam q_g c_Rx c_i c_j c_k h_i h_j h_k Se_i Se_j Se_k Sp_i Sp_j Sp_k p_Rx : ℚ) :
    INB_i_j_k_M p lam q_g c_Rx c_i c_j c_k h_i h_j h_k
        Se_i Se_j Se_k Sp_i Sp_j Sp_k p_Rx =
      INB p lam q_g c_Rx
        (c_i + lam * h_i + c_j + lam * h_j +
         (p * (Se_i * (1 - Se_j) + (1 - Se_i) * Se_j) +
          (1 - p) * (Sp_i * (1 - Sp_j) + (1 - Sp_i) * Sp_j)) * (c_k + lam * h_k))
        0 (Se_i * Se_j + Se_i * Se_k + Se_j * Se_k - 2 * Se_i * Se_j * Se_k)
        (Sp_i * Sp_j + Sp_i * Sp_k + Sp_j * Sp_k - 2 * Sp_i * Sp_j * Sp_k) p_Rx := by
  simp only [INB, INB_i_j_k_M]
  split_ifs <;> first
    | rfl
    | (congr 1; ring)

/-- C3: the conjunctive functions are the single-test form with `Se`
replaced by the product of sensitivities and `1 - Sp` by the product of
the `1 - Sp_t`, and with the unit cost replaced by the expected
sequential cost: `kappa = (c_Dx_i + lam*h_Dx_i) +
(p*Se_i + (1-p)*(1-Sp_i))*(c_Dx_j + lam*h_Dx_j)` for two tests, plus a
third term weighted by `p*Se_i*Se_j + (1-p)*(1-Sp_i)*(1-Sp_j)` for
three tests. -/
theorem INB_conjunctive_as_single :
    (∀ p lam q_g c_Rx c_i c_j h_i h_j Se_i Se_j Sp_i Sp_j p_Rx : ℚ,
      INB_i_j_c p lam q_g c_Rx c_i c_j h_i h_j Se_i Se_j Sp_i Sp_j p_Rx =
        INB p lam q_g c_Rx
          (c_i + lam * h_i + (p * Se_i + (1 - p) * (1 - Sp_i)) * (c_j + lam * h_j))
          0 (Se_i * Se_j) (1 - (1 - Sp_i) * (1 - Sp_j)) p_Rx) ∧
    (∀ p lam q_g c_Rx c_i c_j c_k h_i h_j h_k Se_i Se_j Se_k Sp_i Sp_j Sp_k p_Rx : ℚ,
      INB_i_j_k_c p lam q_g c_Rx c_i c_j c_k h_i h_j h_k
          Se_i Se_j Se_k Sp_i Sp_j Sp_k p_Rx =
        INB p lam q_g c_Rx
          (c_i + lam * h_i + (p * Se_i + (1 - p) * (1 - Sp_i)) * (c_j + lam * h_j) +
           (p * Se_i * Se_j + (1 - p) * (1 - Sp_i) * (1 - Sp_j)) * (c_k + lam * h_k))
          0 (Se_i * Se_j * Se_k)
          (1 - (1 - Sp_i) * (1 - Sp_j) * (1 - Sp_k)) p_Rx) := by
  exact ⟨fun p lam q_g c_Rx c_i c_j h_i h_j Se_i Se_j Sp_i Sp_j p_Rx =>
      INB_i_j_c_eq p lam q_g c_Rx c_i c_j h_i h_j Se_i Se_j Sp_i Sp_j p_Rx,
    fun p lam q_g c_Rx c_i c_j c_k h_i h_j h_k Se_i Se_j Se_k Sp_i Sp_j Sp_k p_Rx =>
      INB_i_j_k_c_eq p lam q_g c_Rx c_i c_j c_k h_i h_j h_k
        Se_i Se_j Se_k Sp_i Sp_j Sp_k p_Rx⟩

/-- C4: the majority-rule function is the single-test form with
effective positive rate `Se_i*Se_j + Se_i*Se_k + Se_j*Se_k -
2*Se_i*Se_j*Se_k`, the analogous effective specificity, and a `kappa`
that charges tests i and j unconditionally and test k only weighted by
the probability that the first two tests disagree:
`p*(Se_i*(1-Se_j) + (1-Se_i)*Se_j) +
(1-p)*(Sp_i*(1-Sp_j) + (1-Sp_i)*Sp_j)`. -/
theorem INB_majority_as_single
    (p lam q_g c_Rx c_i c_j c_k h_i h_j h_k Se_i Se_j Se_k Sp_i Sp_j Sp_k p_Rx : ℚ) :
    INB_i_j_k_M p lam q_g c_Rx c_i c_j c_k h_i h_j h_k
        Se_i Se_j Se_k Sp_i Sp_j Sp_k p_Rx =
      INB p lam q_g c_Rx
        (c_i + lam * h_i + c_j + lam * h_j +
         (p * (Se_i * (1 - Se_j) + (1 - Se_i) * Se_j) +
          (1 - p) * (Sp_i * (1 - Sp_j) + (1 - Sp_i) * Sp_j)) * (c_k + lam * h_k))
        0 (Se_i * Se_j + Se_i * Se_k + Se_j * Se_k - 2 * Se_i * Se_j * Se_k)
        (Sp_i * Sp_j + Sp_i * Sp_k + Sp_j * Sp_k - 2 * Sp_i * Sp_j * Sp_k) p_Rx := by
  exact INB_i_j_k_M_eq p lam q_g c_Rx c_i c_j c_k h_i h_j h_k
    Se_i Se_j Se_k Sp_i Sp_j Sp_k p_Rx

/-- Envelope ("hull") of the selected INB sequences, from `app.py`
(`page1`/`page2`): `y_max_values = np.max(y_all_values, axis=0)`, the
elementwise maximum over the raw (unfiltered) per-strategy sequences.
`np.max` raises on an empty list of sequences, modelled as `none`. -/
def hull (seqs : List (List ℚ)) : Option (List ℚ) :=
  match seqs with
  | [] => none
  | s :: rest => some (rest.foldl (fun acc t => List.zipWith max acc t) s)

/-- The fold of pointwise maxima keeps the length and computes, at each
index, an upper bound of all entries that is attained by one of them. -/
theorem hullFold_getD (i : ℕ) (rest : List (List ℚ)) :
    ∀ s : List ℚ, (∀ t ∈ rest, t.length = s.length) → i < s.length →
      (rest.foldl (fun acc t => List.zipWith max acc t) s).length = s.length ∧
      s.getD i 0 ≤ (rest.foldl (fun acc t => List.zipWith max acc t) s).getD i 0 ∧
      (∀ t ∈ rest,
        t.getD i 0 ≤ (rest.foldl (fun acc t => List.zipWith max acc t) s).getD i 0) ∧
      ((rest.foldl (fun acc t => List.zipWith max acc t) s).getD i 0 = s.getD i 0 ∨
        ∃ t ∈ rest,
          (rest.foldl (fun acc t => List.zipWith max acc t) s).getD i 0 = t.getD i 0) := by
  induction rest with
  | nil =>
    intro s _ _
    exact ⟨rfl, le_refl _, by simp, Or.inl rfl⟩
  | cons t rest ih =>
    intro s hlen hi
    have hts : t.length = s.length := hlen t (List.mem_cons_self t rest)
    have hzl : (List.zipWith max s t).length = s.length := by
      rw [List.length_zipWith, hts, min_self]
    have hlen' : ∀ u ∈ rest, u.length = (List.zipWith max s t).length := by
      intro u hu; rw [hzl]; exact hlen u (List.mem_cons_of_mem t hu)
    have hi' : i < (List.zipWith max s t).length := by rw [hzl]; exact hi
    have hit : i < t.length := by rw [hts]; exact hi
    have hzd : (List.zipWith max s t).getD i 0 = max (s.getD i 0) (t.getD i 0) := by
      rw [List.getD_eq_getElem _ _ hi', List.getD_eq_getElem _ _ hi,
        List.getD_eq_getElem _ _ hit, List.getElem_zipWith]
    obtain ⟨hL, hub, hrest, hmem⟩ := ih (List.zipWith max s t) hlen' hi'
    have hs' : s.getD i 0 ≤ (List.zipWith max s t).getD i 0 := by
      rw [hzd]; exact le_max_left _ _
    have ht' : t.getD i 0 ≤ (List.zipWith max s t).getD i 0 := by
      rw [hzd]; exact le_max_right _ _
    simp only [List.foldl_cons]
    refine ⟨by rw [hL, hzl], le_trans hs' hub, ?_, ?_⟩
    · intro u hu
      rcases List.mem_cons.mp hu with h | h
      · subst h; exact le_trans ht' hub
      · exact hrest u h
    · rcases hmem with h | ⟨u, hu, h⟩
      · rw [hzd] at h
        rcases max_choice (s.getD i 0) (t.getD i 0) with hc | hc
        · exact Or.inl (by rw [h, hc])
        · exact Or.inr ⟨t, List.mem_cons_self t rest, by rw [h, hc]⟩
      · exact Or.inr ⟨u, List.mem_cons_of_mem t hu, h⟩

/-- C6: for a non-empty family of same-length sequences the hull is the
pointwise maximum — at every index it bounds every sequence's entry and
equals one of them — and on the literal example
`s1 = [0.1, -0.2, 0.3]`, `s2 = [-0.1, 0.4, 0.2]` (raw values, negative
entries included, before any non-negativity display filter) the hull is
`[0.1, 0.4, 0.3]`. -/
theorem hull_pointwise_max (s : List ℚ) (rest : List (List ℚ)) (i : ℕ)
    (hlen : ∀ t ∈ rest, t.length = s.length) (hi : i < s.length) :
    (∃ h, hull (s :: rest) = some h ∧ h.length = s.length ∧
      s.getD i 0 ≤ h.getD i 0 ∧ (∀ t ∈ rest, t.getD i 0 ≤ h.getD i 0) ∧
      (h.getD i 0 = s.getD i 0 ∨ ∃ t ∈ rest, h.getD i 0 = t.getD i 0)) ∧
    hull [[1/10, -(1/5), 3/10], [-(1/10), 2/5, 1/5]] = some [1/10, 2/5, 3/10] := by
  obtain ⟨hL, hub, hrest, hmem⟩ := hullFold_getD i rest s hlen hi
  exact ⟨⟨_, rfl, hL, hub, hrest, hmem⟩, by norm_num [hull, max_def]⟩

/-- Witness for C6: the hull of `[[1,2],[3,0]]` at index `0` is bounded
below by both entries and attained. -/
theorem hull_pointwise_max_witness :
    ∃ h, hull [[(1:ℚ), 2], [3, 0]] = some h ∧ h.length = 2 ∧
      ([(1:ℚ), 2]).getD 0 0 ≤ h.getD 0 0 ∧
      (∀ t ∈ [[(3:ℚ), 0]], t.getD 0 0 ≤ h.getD 0 0) ∧
      (h.getD 0 0 = ([(1:ℚ), 2]).getD 0 0 ∨
        ∃ t ∈ [[(3:ℚ), 0]], h.getD 0 0 = t.getD 0 0) :=
  (hull_pointwise_max [(1:ℚ), 2] [[3, 0]] 0
    (by intro t ht; simp at ht; rw [ht]; rfl) (by norm_num)).1

/-- C10: the hull of zero sequences is an error (`np.max` has no
identity for an empty reduction), and the hull of at least one sequence
always yields a sequence. -/
theorem hull_empty_fails :
    hull ([] : List (List ℚ)) = none ∧
    ∀ (s : List ℚ) (rest : List (List ℚ)), (hull (s :: rest)).isSome := by
  exact ⟨rfl, fun s rest => rfl⟩

/-- C5: at the threshold `p = p_Rx` (with `p_Rx ∈ (0,1)`) every one of
the six formula functions takes the second (upper) branch — the `≥`
comparison includes the threshold — and returns exactly that branch's
expression: a single well-defined value with no gap. -/
theorem formulas_threshold_second_branch
    (lam q_g c_Rx c_i c_j c_k h_i h_j h_k Se_i Se_j Se_k Sp_i Sp_j Sp_k p_Rx : ℚ)
    (hRx0 : 0 < p_Rx) (hRx1 : p_Rx < 1) :
    INB p_Rx lam q_g c_Rx c_i h_i Se_i Sp_i p_Rx =
      PyVal.val ((lam * q_g - c_Rx) *
        (-p_Rx * (1 - Se_i) + (1 - p_Rx) * Sp_i * p_Rx / (1 - p_Rx)) -
        (c_i + lam * h_i)) ∧
    INB_i_j_c p_Rx lam q_g c_Rx c_i c_j h_i h_j Se_i Se_j Sp_i Sp_j p_Rx =
      PyVal.val (-(c_i + lam * h_i +
          (p_Rx * Se_i + (1 - p_Rx) * (1 - Sp_i)) * (c_j + lam * h_j)) +
        (lam * q_g - c_Rx) * (-p_Rx * (1 - Se_i * Se_j) +
          (1 - p_Rx) * (1 - (1 - Sp_i) * (1 - Sp_j)) * p_Rx / (1 - p_Rx))) ∧
    INB_i_j_d p_Rx lam q_g c_Rx c_i c_j h_i h_j Se_i Se_j Sp_i Sp_j p_Rx =
      PyVal.val (-(c_i + lam * h_i +
          (p_Rx * (1 - Se_i) + (1 - p_Rx) * Sp_i) * (c_j + lam * h_j)) +
        (lam * q_g - c_Rx) * (-p_Rx * (1 - Se_i) * (1 - Se_j) +
          (1 - p_Rx) * Sp_i * Sp_j * p_Rx / (1 - p_Rx))) ∧
    INB_i_j_k_c p_Rx lam q_g c_Rx c_i c_j c_k h_i h_j h_k
        Se_i Se_j Se_k Sp_i Sp_j Sp_k p_Rx =
      PyVal.val (-(c_i + lam * h_i +
          (p_Rx * Se_i + (1 - p_Rx) * (1 - Sp_i)) * (c_j + lam * h_j) +
          (p_Rx * Se_i * Se_j + (1 - p_Rx) * (1 - Sp_i) * (1 - Sp_j)) *
            (c_k + lam * h_k)) +
        (lam * q_g - c_Rx) * (-p_Rx * (1 - Se_i * Se_j * Se_k) +
          (1 - p_Rx) * (1 - (1 - Sp_i) * (1 - Sp_j) * (1 - Sp_k)) *
            p_Rx / (1 - p_Rx))) ∧
    INB_i_j_k_d p_Rx lam q_g c_Rx c_i c_j c_k h_i h_j h_k
        Se_i Se_j Se_k Sp_i Sp_j Sp_k p_Rx =
      PyVal.val (-(c_i + lam * h_i +
          (p_Rx * (1 - Se_i) + (1 - p_Rx) * Sp_i) * (c_j + lam * h_j) +
          (p_Rx * (1 - Se_i) * (1 - Se_j) + (1 - p_Rx) * Sp_i * Sp_j) *
            (c_k + lam * h_k)) +
        (lam * q_g - c_Rx) * (-p_Rx * (1 - Se_i) * (1 - Se_j) * (1 - Se_k) +
          (1 - p_Rx) * Sp_i * Sp_j * Sp_k * p_Rx / (1 - p_Rx))) ∧
    INB_i_j_k_M p_Rx lam q_g c_Rx c_i c_j c_k h_i h_j h_k
        Se_i Se_j Se_k Sp_i Sp_j Sp_k p_Rx =
      PyVal.val (-(c_i + lam * h_i + c_j + lam * h_j +
          (p_Rx * Se_i * (1 - Se_j) + p_Rx * (1 - Se_i) * Se_j +
           (1 - p_Rx) * Sp_i * (1 - Sp_j) + (1 - p_Rx) * (1 - Sp_i) * Sp_j) *
            (c_k + lam * h_k)) +
        (lam * q_g - c_Rx) * (-p_Rx * (1 - Se_i * Se_j - Se_i * Se_k -
            Se_j * Se_k + 2 * Se_i * Se_j * Se_k) +
          (1 - p_Rx) * (Sp_i * Sp_j + Sp_i * Sp_k + Sp_j * Sp_k -
            2 * Sp_i * Sp_j * Sp_k) * p_Rx / (1 - p_Rx))) := by
  have hne : ¬ (1 - p_Rx = 0) := by intro h; linarith
  have hnot : ¬ (0 ≤ p_Rx ∧ p_Rx < p_Rx) := fun h => lt_irrefl _ h.2
  have hhi : p_Rx ≤ p_Rx ∧ p_Rx ≤ 1 := ⟨le_refl _, le_of_lt hRx1⟩
  refine ⟨?_, ?_, ?_, ?_, ?_, ?_⟩ <;>
  · simp only [INB, INB_i_j_c, INB_i_j_d, INB_i_j_k_c, INB_i_j_k_d, INB_i_j_k_M]
    rw [if_neg hnot, if_pos hhi, if_neg hne]

/-- Witness for C5: the single-test function at `p = p_Rx = 1/2` returns
the second branch's value. -/
theorem formulas_threshold_second_branch_witness :
    INB (1/2) 1 1 0 (1/10) 0 (4/5) (4/5) (1/2) =
      PyVal.val ((1 * 1 - 0) *
        (-(1/2) * (1 - 4/5) + (1 - 1/2) * (4/5) * (1/2) / (1 - 1/2)) -
        (1/10 + 1 * 0)) :=
  (formulas_threshold_second_branch 1 1 0 (1/10) (1/10) (1/10) 0 0 0
    (4/5) (4/5) (4/5) (4/5) (4/5) (4/5) (1/2) (by norm_num) (by norm_num)).1

/-- Counterexample for C7: a call with `p = 2` (outside `[0,1]`) is not
rejected with a validation error: neither branch condition matches and
the function silently returns `None`. -/
theorem INB_out_of_range_returns_none :
    INB 2 1 1 0 (1/10) 0 (4/5) (4/5) (1/2) = PyVal.retNone := by
  simp only [INB]
  rw [if_neg (by norm_num), if_neg (by norm_num)]

/-- C7 (amended): the formula functions perform no input validation.
With `p_Rx ∈ (0,1)` and `p` outside `[0,1]`, all six functions match
neither branch and silently return `None`; with `p ∈ [0,1]` the
threshold is not validated either: for `p_Rx ≤ 0` the single-test
function silently returns a numeric value from the second branch, and
for `p_Rx = 1` it fails with a `ZeroDivisionError` raised by the branch
body's division, not a validation error at the call boundary. -/
theorem formulas_no_validation
    (p lam q_g c_Rx c_i c_j c_k h_i h_j h_k Se_i Se_j Se_k Sp_i Sp_j Sp_k p_Rx : ℚ) :
    ((p < 0 ∨ 1 < p) → 0 < p_Rx → p_Rx < 1 →
      INB p lam q_g c_Rx c_i h_i Se_i Sp_i p_Rx = PyVal.retNone ∧
      INB_i_j_c p lam q_g c_Rx c_i c_j h_i h_j Se_i Se_j Sp_i Sp_j p_Rx =
        PyVal.retNone ∧
      INB_i_j_d p lam q_g c_Rx c_i c_j h_i h_j Se_i Se_j Sp_i Sp_j p_Rx =
        PyVal.retNone ∧
      INB_i_j_k_c p lam q_g c_Rx c_i c_j c_k h_i h_j h_k
        Se_i Se_j Se_k Sp_i Sp_j Sp_k p_Rx = PyVal.retNone ∧
      INB_i_j_k_d p lam q_g c_Rx c_i c_j c_k h_i h_j h_k
        Se_i Se_j Se_k Sp_i Sp_j Sp_k p_Rx = PyVal.retNone ∧
      INB_i_j_k_M p lam q_g c_Rx c_i c_j c_k h_i h_j h_k
        Se_i Se_j Se_k Sp_i Sp_j Sp_k p_Rx = PyVal.retNone) ∧
    (0 ≤ p → p ≤ 1 → p_Rx ≤ 0 →
      INB p lam q_g c_Rx c_i h_i Se_i Sp_i p_Rx =
        PyVal.val ((lam * q_g - c_Rx) *
          (-p * (1 - Se_i) + (1 - p) * Sp_i * p_Rx / (1 - p_Rx)) -
          (c_i + lam * h_i))) ∧
    (0 ≤ p → p ≤ 1 →
      INB p lam q_g c_Rx c_i h_i Se_i Sp_i 1 = PyVal.zeroDiv) := by
  refine ⟨?_, ?_, ?_⟩
  · intro hp hRx0 hRx1
    have h1 : ¬ (0 ≤ p ∧ p < p_Rx) := by
      rintro ⟨a, c⟩; rcases hp with h | h <;> linarith
    have h2 : ¬ (p_Rx ≤ p ∧ p ≤ 1) := by
      rintro ⟨a, c⟩; rcases hp with h | h <;> linarith
    refine ⟨?_, ?_, ?_, ?_, ?_, ?_⟩ <;>
    · simp only [INB, INB_i_j_c, INB_i_j_d, INB_i_j_k_c, INB_i_j_k_d, INB_i_j_k_M,
        if_neg h1, if_neg h2]
  · intro h0 h1 hRx
    have hn1 : ¬ (0 ≤ p ∧ p < p_Rx) := by rintro ⟨a, c⟩; linarith
    have hp2 : p_Rx ≤ p ∧ p ≤ 1 := ⟨le_trans hRx h0, h1⟩
    have hne : ¬ (1 - p_Rx = 0) := by intro h; linarith
    simp only [INB, if_neg hn1, if_pos hp2, if_neg hne]
  · intro h0 h1
    have hd : (1:ℚ) - 1 = 0 := by norm_num
    simp only [INB]
    rcases lt_or_ge p 1 with hlt | hge
    · rw [if_pos ⟨h0, hlt⟩, if_pos hd]
    · rw [if_neg (fun hc => absurd hc.2 (not_lt.mpr hge)), if_pos ⟨hge, h1⟩,
        if_pos hd]

/-- Witness for C7 (amended): concrete instances at `p = 2` with
`p_Rx = 1/2`, and at `p = 1/2` with `p_Rx = 0` and `p_Rx = 1`. -/
theorem formulas_no_validation_witness :
    INB 2 1 1 0 (1/10) 0 (4/5) (4/5) (1/2) = PyVal.retNone ∧
    INB (1/2) 1 1 0 (1/10) 0 (4/5) (4/5) 0 =
      PyVal.val ((1 * 1 - 0) *
        (-(1/2) * (1 - 4/5) + (1 - 1/2) * (4/5) * 0 / (1 - 0)) -
        (1/10 + 1 * 0)) ∧
    INB (1/2) 1 1 0 (1/10) 0 (4/5) (4/5) 1 = PyVal.zeroDiv := by
  refine ⟨?_, ?_, ?_⟩
  · exact ((formulas_no_validation 2 1 1 0 (1/10) (1/10) (1/10) 0 0 0
      (4/5) (4/5) (4/5) (4/5) (4/5) (4/5) (1/2)).1 (Or.inr (by norm_num))
      (by norm_num) (by norm_num)).1
  · exact (formulas_no_validation (1/2) 1 1 0 (1/10) (1/10) (1/10) 0 0 0
      (4/5) (4/5) (4/5) (4/5) (4/5) (4/5) 0).2.1 (by norm_num) (by norm_num)
      (le_refl 0)
  · exact (formulas_no_validation (1/2) 1 1 0 (1/10) (1/10) (1/10) 0 0 0
      (4/5) (4/5) (4/5) (4/5) (4/5) (4/5) (1/2)).2.2 (by norm_num) (by norm_num)

/-- C8: with `p_Rx = 1` every branch body reaches the division
`p_Rx/(1-p_Rx)` with zero denominator, so for every `p ∈ [0,1]` each of
the six functions ends in the division error — no numeric value is
returned and the division is never silently `inf`/`NaN` (Python float
division by zero raises `ZeroDivisionError`). -/
theorem formulas_pRx_one_zeroDiv
    (p lam q_g c_Rx c_i c_j c_k h_i h_j h_k Se_i Se_j Se_k Sp_i Sp_j Sp_k : ℚ)
    (h0 : 0 ≤ p) (h1 : p ≤ 1) :
    INB p lam q_g c_Rx c_i h_i Se_i Sp_i 1 = PyVal.zeroDiv ∧
    INB_i_j_c p lam q_g c_Rx c_i c_j h_i h_j Se_i Se_j Sp_i Sp_j 1 =
      PyVal.zeroDiv ∧
    INB_i_j_d p lam q_g c_Rx c_i c_j h_i h_j Se_i Se_j Sp_i Sp_j 1 =
      PyVal.zeroDiv ∧
    INB_i_j_k_c p lam q_g c_Rx c_i c_j c_k h_i h_j h_k
      Se_i Se_j Se_k Sp_i Sp_j Sp_k 1 = PyVal.zeroDiv ∧
    INB_i_j_k_d p lam q_g c_Rx c_i c_j c_k h_i h_j h_k
      Se_i Se_j Se_k Sp_i Sp_j Sp_k 1 = PyVal.zeroDiv ∧
    INB_i_j_k_M p lam q_g c_Rx c_i c_j c_k h_i h_j h_k
      Se_i Se_j Se_k Sp_i Sp_j Sp_k 1 = PyVal.zeroDiv := by
  have hd : (1:ℚ) - 1 = 0 := by norm_num
  refine ⟨?_, ?_, ?_, ?_, ?_, ?_⟩ <;>
  · simp only [INB, INB_i_j_c, INB_i_j_d, INB_i_j_k_c, INB_i_j_k_d, INB_i_j_k_M]
    rcases lt_or_ge p 1 with hlt | hge
    · rw [if_pos ⟨h0, hlt⟩, if_pos hd]
    · rw [if_neg (fun hc => absurd hc.2 (not_lt.mpr hge)), if_pos ⟨hge, h1⟩,
        if_pos hd]

/-- Witness for C8: concrete evaluation at `p = 1/2` and `p_Rx = 1`. -/
theorem formulas_pRx_one_zeroDiv_witness :
    INB (1/2) 1 1 0 (1/10) 0 (4/5) (4/5) 1 = PyVal.zeroDiv :=
  (formulas_pRx_one_zeroDiv (1/2) 1 1 0 (1/10) (1/10) (1/10) 0 0 0
    (4/5) (4/5) (4/5) (4/5) (4/5) (4/5) (by norm_num) (by norm_num)).1

/-- With nonnegative benefit scale (`c_Rx ≤ lam*q_g`) and
`p_Rx ∈ (0,1)`, the single-test INB outcome is non-decreasing in the
sensitivity. -/
theorem INB_q_mono_Se (p lam q_g c_Rx c_Dx h_Dx Se Se' Sp p_Rx : ℚ)
    (hb : c_Rx ≤ lam * q_g) (hRx0 : 0 < p_Rx) (hRx1 : p_Rx < 1) (hSe : Se ≤ Se') :
    (INB p lam q_g c_Rx c_Dx h_Dx Se Sp p_Rx).q ≤
      (INB p lam q_g c_Rx c_Dx h_Dx Se' Sp p_Rx).q := by
  have hb0 : (0:ℚ) ≤ lam * q_g - c_Rx := by linarith
  simp only [INB]
  split_ifs with hA hD hB hD'
  · simp [PyVal.q]
  · simp only [PyVal.q]
    have hps : p * Se ≤ p * Se' := mul_le_mul_of_nonneg_left hSe hA.1
    exact sub_le_sub_right
      (mul_le_mul_of_nonneg_left (sub_le_sub_right hps _) hb0) _
  · simp [PyVal.q]
  · simp only [PyVal.q]
    have hp0 : 0 ≤ p := le_trans (le_of_lt hRx0) hB.1
    have hps : -p * (1 - Se) ≤ -p * (1 - Se') := by
      nlinarith [mul_le_mul_of_nonneg_left hSe hp0]
    exact sub_le_sub_right
      (mul_le_mul_of_nonneg_left (add_le_add_right hps _) hb0) _
  · simp [PyVal.q]

/-- With nonnegative benefit scale (`c_Rx ≤ lam*q_g`) and
`p_Rx ∈ (0,1)`, the single-test INB outcome is non-decreasing in the
specificity. -/
theorem INB_q_mono_Sp (p lam q_g c_Rx c_Dx h_Dx Se Sp Sp' p_Rx : ℚ)
    (hb : c_Rx ≤ lam * q_g) (hRx0 : 0 < p_Rx) (hRx1 : p_Rx < 1) (hSp : Sp ≤ Sp') :
    (INB p lam q_g c_Rx c_Dx h_Dx Se Sp p_Rx).q ≤
      (INB p lam q_g c_Rx c_Dx h_Dx Se Sp' p_Rx).q := by
  have hb0 : (0:ℚ) ≤ lam * q_g - c_Rx := by linarith
  have hden : (0:ℚ) < 1 - p_Rx := by linarith
  have hRxnn : (0:ℚ) ≤ p_Rx := le_of_lt hRx0
  simp only [INB]
  split_ifs with hA hD hB hD'
  · simp [PyVal.q]
  · simp only [PyVal.q]
    have hp1 : (0:ℚ) ≤ 1 - p := by have := hA.2; linarith
    have hm1 : (1 - p) * (1 - Sp') ≤ (1 - p) * (1 - Sp) :=
      mul_le_mul_of_nonneg_left (by linarith) hp1
    have hm2 : (1 - p) * (1 - Sp') * p_Rx ≤ (1 - p) * (1 - Sp) * p_Rx :=
      mul_le_mul_of_nonneg_right hm1 hRxnn
    have hm3 : (1 - p) * (1 - Sp') * p_Rx / (1 - p_Rx) ≤
        (1 - p) * (1 - Sp) * p_Rx / (1 - p_Rx) :=
      (div_le_div_right hden).2 hm2
    exact sub_le_sub_right
      (mul_le_mul_of_nonneg_left (sub_le_sub_left hm3 _) hb0) _
  · simp [PyVal.q]
  · simp only [PyVal.q]
    have hp1 : (0:ℚ) ≤ 1 - p := by have := hB.2; linarith
    have hm1 : (1 - p) * Sp ≤ (1 - p) * Sp' :=
      mul_le_mul_of_nonneg_left hSp hp1
    have hm2 : (1 - p) * Sp * p_Rx ≤ (1 - p) * Sp' * p_Rx :=
      mul_le_mul_of_nonneg_right hm1 hRxnn
    have hm3 : (1 - p) * Sp * p_Rx / (1 - p_Rx) ≤
        (1 - p) * Sp' * p_Rx / (1 - p_Rx) :=
      (div_le_div_right hden).2 hm2
    exact sub_le_sub_right
      (mul_le_mul_of_nonneg_left (add_le_add_left hm3 _) hb0) _
  · simp [PyVal.q]

/-- Counterexample for C9: monotonicity in a test's accuracy fails on
the code.  First, with `lam = 0, q_g = 0, c_Rx = 1` (all in `[0,1]`) the
benefit scale is `b = -1 < 0` and raising `Se` from `1/2` to `1` lowers
the single-test INB from `-1/10` to `-7/20`.  Second, even with `b = 1`,
raising `Se_i` from `1/2` to `1` in the two-test conjunctive function
(with `c_Dx_j = 1`, `Se_j = 0`) raises the expected sequential cost and
lowers the INB from `-1/4` to `-1/2`. -/
theorem INB_monotonicity_fails :
    INB (1/2) 0 0 1 0 0 (1/2) (4/5) (3/5) = PyVal.val (-(1/10)) ∧
    INB (1/2) 0 0 1 0 0 1 (4/5) (3/5) = PyVal.val (-(7/20)) ∧
    (-(7/20) : ℚ) < -(1/10) ∧
    INB_i_j_c (1/2) 1 1 0 0 1 0 0 (1/2) 0 1 1 (3/5) = PyVal.val (-(1/4)) ∧
    INB_i_j_c (1/2) 1 1 0 0 1 0 0 1 0 1 1 (3/5) = PyVal.val (-(1/2)) ∧
    (-(1/2) : ℚ) < -(1/4) := by
  refine ⟨?_, ?_, by norm_num, ?_, ?_, by norm_num⟩ <;>
  · simp only [INB, INB_i_j_c]
    rw [if_pos (by norm_num), if_neg (by norm_num)]
    norm_num

/-- C9 (amended): with nonnegative benefit scale `b = lam*q_g - c_Rx ≥ 0`,
`p_Rx ∈ (0,1)` and the earlier tests' parameters in `[0,1]`, each
function is monotonically non-decreasing in its final test's `Se` and
`Sp` (and the single-test function in its own `Se` and `Sp`), at every
`p`.  Monotonicity in an earlier test's `Se` or `Sp` can fail, because
those parameters also enter the expected sequential cost `kappa`;
without `b ≥ 0` it fails even for the single test. -/
theorem INB_monotone_amended
    (p lam q_g c_Rx c_i c_j c_k h_i h_j h_k
     Se_i Se_j Se_k Sp_i Sp_j Sp_k Se_i' Sp_i' Se_j' Sp_j' Se_k' Sp_k' p_Rx : ℚ)
    (hb : c_Rx ≤ lam * q_g) (hRx0 : 0 < p_Rx) (hRx1 : p_Rx < 1)
    (hSei : 0 ≤ Se_i) (hSei1 : Se_i ≤ 1) (hSej : 0 ≤ Se_j) (hSej1 : Se_j ≤ 1)
    (hSpi : 0 ≤ Sp_i) (hSpi1 : Sp_i ≤ 1) (hSpj : 0 ≤ Sp_j) (hSpj1 : Sp_j ≤ 1) :
    (Se_i ≤ Se_i' →
      (INB p lam q_g c_Rx c_i h_i Se_i Sp_i p_Rx).q ≤
        (INB p lam q_g c_Rx c_i h_i Se_i' Sp_i p_Rx).q) ∧
    (Sp_i ≤ Sp_i' →
      (INB p lam q_g c_Rx c_i h_i Se_i Sp_i p_Rx).q ≤
        (INB p lam q_g c_Rx c_i h_i Se_i Sp_i' p_Rx).q) ∧
    (Se_j ≤ Se_j' →
      (INB_i_j_c p lam q_g c_Rx c_i c_j h_i h_j Se_i Se_j Sp_i Sp_j p_Rx).q ≤
        (INB_i_j_c p lam q_g c_Rx c_i c_j h_i h_j Se_i Se_j' Sp_i Sp_j p_Rx).q) ∧
    (Sp_j ≤ Sp_j' →
      (INB_i_j_c p lam q_g c_Rx c_i c_j h_i h_j Se_i Se_j Sp_i Sp_j p_Rx).q ≤
        (INB_i_j_c p lam q_g c_Rx c_i c_j h_i h_j Se_i Se_j Sp_i Sp_j' p_Rx).q) ∧
    (Se_j ≤ Se_j' →
      (INB_i_j_d p lam q_g c_Rx c_i c_j h_i h_j Se_i Se_j Sp_i Sp_j p_Rx).q ≤
        (INB_i_j_d p lam q_g c_Rx c_i c_j h_i h_j Se_i Se_j' Sp_i Sp_j p_Rx).q) ∧
    (Sp_j ≤ Sp_j' →
      (INB_i_j_d p lam q_g c_Rx c_i c_j h_i h_j Se_i Se_j Sp_i Sp_j p_Rx).q ≤
        (INB_i_j_d p lam q_g c_Rx c_i c_j h_i h_j Se_i Se_j Sp_i Sp_j' p_Rx).q) ∧
    (Se_k ≤ Se_k' →
      (INB_i_j_k_c p lam q_g c_Rx c_i c_j c_k h_i h_j h_k
          Se_i Se_j Se_k Sp_i Sp_j Sp_k p_Rx).q ≤
        (INB_i_j_k_c p lam q_g c_Rx c_i c_j c_k h_i h_j h_k
          Se_i Se_j Se_k' Sp_i Sp_j Sp_k p_Rx).q) ∧
    (Sp_k ≤ Sp_k' →
      (INB_i_j_k_c p lam q_g c_Rx c_i c_j c_k h_i h_j h_k
          Se_i Se_j Se_k Sp_i Sp_j Sp_k p_Rx).q ≤
        (INB_i_j_k_c p lam q_g c_Rx c_i c_j c_k h_i h_j h_k
          Se_i Se_j Se_k Sp_i Sp_j Sp_k' p_Rx).q) ∧
    (Se_k ≤ Se_k' →
      (INB_i_j_k_d p lam q_g c_Rx c_i c_j c_k h_i h_j h_k
          Se_i Se_j Se_k Sp_i Sp_j Sp_k p_Rx).q ≤
        (INB_i_j_k_d p lam q_g c_Rx c_i c_j c_k h_i h_j h_k
          Se_i Se_j Se_k' Sp_i Sp_j Sp_k p_Rx).q) ∧
    (Sp_k ≤ Sp_k' →
      (INB_i_j_k_d p lam q_g c_Rx c_i c_j c_k h_i h_j h_k
          Se_i Se_j Se_k Sp_i Sp_j Sp_k p_Rx).q ≤
        (INB_i_j_k_d p lam q_g c_Rx c_i c_j c_k h_i h_j h_k
          Se_i Se_j Se_k Sp_i Sp_j Sp_k' p_Rx).q) ∧
    (Se_k ≤ Se_k' →
      (INB_i_j_k_M p lam q_g c_Rx c_i c_j c_k h_i h_j h_k
          Se_i Se_j Se_k Sp_i Sp_j Sp_k p_Rx).q ≤
        (INB_i_j_k_M p lam q_g c_Rx c_i c_j c_k h_i h_j h_k
          Se_i Se_j Se_k' Sp_i Sp_j Sp_k p_Rx).q) ∧
    (Sp_k ≤ Sp_k' →
      (INB_i_j_k_M p lam q_g c_Rx c_i c_j c_k h_i h_j h_k
          Se_i Se_j Se_k Sp_i Sp_j Sp_k p_Rx).q ≤
        (INB_i_j_k_M p lam q_g c_Rx c_i c_j c_k h_i h_j h_k
          Se_i Se_j Se_k Sp_i Sp_j Sp_k' p_Rx).q) := by
  refine ⟨?_, ?_, ?_, ?_, ?_, ?_, ?_, ?_, ?_, ?_, ?_, ?_⟩
  · intro h
    exact INB_q_mono_Se p lam q_g c_Rx c_i h_i Se_i Se_i' Sp_i p_Rx hb hRx0 hRx1 h
  · intro h
    exact INB_q_mono_Sp p lam q_g c_Rx c_i h_i Se_i Sp_i Sp_i' p_Rx hb hRx0 hRx1 h
  · intro h
    rw [INB_i_j_c_eq p lam q_g c_Rx c_i c_j h_i h_j Se_i Se_j Sp_i Sp_j p_Rx,
      INB_i_j_c_eq p lam q_g c_Rx c_i c_j h_i h_j Se_i Se_j' Sp_i Sp_j p_Rx]
    exact INB_q_mono_Se _ _ _ _ _ _ _ _ _ _ hb hRx0 hRx1
      (mul_le_mul_of_nonneg_left h hSei)
  · intro h
    rw [INB_i_j_c_eq p lam q_g c_Rx c_i c_j h_i h_j Se_i Se_j Sp_i Sp_j p_Rx,
      INB_i_j_c_eq p lam q_g c_Rx c_i c_j h_i h_j Se_i Se_j Sp_i Sp_j' p_Rx]
    refine INB_q_mono_Sp _ _ _ _ _ _ _ _ _ _ hb hRx0 hRx1 ?_
    have := mul_le_mul_of_nonneg_left (sub_le_sub_left h 1)
      (show (0:ℚ) ≤ 1 - Sp_i by linarith)
    linarith
  · intro h
    rw [INB_i_j_d_eq p lam q_g c_Rx c_i c_j h_i h_j Se_i Se_j Sp_i Sp_j p_Rx,
      INB_i_j_d_eq p lam q_g c_Rx c_i c_j h_i h_j Se_i Se_j' Sp_i Sp_j p_Rx]
    refine INB_q_mono_Se _ _ _ _ _ _ _ _ _ _ hb hRx0 hRx1 ?_
    have := mul_le_mul_of_nonneg_left (sub_le_sub_left h 1)
      (show (0:ℚ) ≤ 1 - Se_i by linarith)
    linarith
  · intro h
    rw [INB_i_j_d_eq p lam q_g c_Rx c_i c_j h_i h_j Se_i Se_j Sp_i Sp_j p_Rx,
      INB_i_j_d_eq p lam q_g c_Rx c_i c_j h_i h_j Se_i Se_j Sp_i Sp_j' p_Rx]
    exact INB_q_mono_Sp _ _ _ _ _ _ _ _ _ _ hb hRx0 hRx1
      (mul_le_mul_of_nonneg_left h hSpi)
  · intro h
    rw [INB_i_j_k_c_eq p lam q_g c_Rx c_i c_j c_k h_i h_j h_k
        Se_i Se_j Se_k Sp_i Sp_j Sp_k p_Rx,
      INB_i_j_k_c_eq p lam q_g c_Rx c_i c_j c_k h_i h_j h_k
        Se_i Se_j Se_k' Sp_i Sp_j Sp_k p_Rx]
    exact INB_q_mono_Se _ _ _ _ _ _ _ _ _ _ hb hRx0 hRx1
      (mul_le_mul_of_nonneg_left h (mul_nonneg hSei hSej))
  · intro h
    rw [INB_i_j_k_c_eq p lam q_g c_Rx c_i c_j c_k h_i h_j h_k
        Se_i Se_j Se_k Sp_i Sp_j Sp_k p_Rx,
      INB_i_j_k_c_eq p lam q_g c_Rx c_i c_j c_k h_i h_j h_k
        Se_i Se_j Se_k Sp_i Sp_j Sp_k' p_Rx]
    refine INB_q_mono_Sp _ _ _ _ _ _ _ _ _ _ hb hRx0 hRx1 ?_
    have := mul_le_mul_of_nonneg_left (sub_le_sub_left h 1)
      (mul_nonneg (show (0:ℚ) ≤ 1 - Sp_i by linarith)
        (show (0:ℚ) ≤ 1 - Sp_j by linarith))
    linarith
  · intro h
    rw [INB_i_j_k_d_eq p lam q_g c_Rx c_i c_j c_k h_i h_j h_k
        Se_i Se_j Se_k Sp_i Sp_j Sp_k p_Rx,
      INB_i_j_k_d_eq p lam q_g c_Rx c_i c_j c_k h_i h_j h_k
        Se_i Se_j Se_k' Sp_i Sp_j Sp_k p_Rx]
    refine INB_q_mono_Se _ _ _ _ _ _ _ _ _ _ hb hRx0 hRx1 ?_
    have := mul_le_mul_of_nonneg_left (sub_le_sub_left h 1)
      (mul_nonneg (show (0:ℚ) ≤ 1 - Se_i by linarith)
        (show (0:ℚ) ≤ 1 - Se_j by linarith))
    linarith
  · intro h
    rw [INB_i_j_k_d_eq p lam q_g c_Rx c_i c_j c_k h_i h_j h_k
        Se_i Se_j Se_k Sp_i Sp_j Sp_k p_Rx,
      INB_i_j_k_d_eq p lam q_g c_Rx c_i c_j c_k h_i h_j h_k
        Se_i Se_j Se_k Sp_i Sp_j Sp_k' p_Rx]
    exact INB_q_mono_Sp _ _ _ _ _ _ _ _ _ _ hb hRx0 hRx1
      (mul_le_mul_of_nonneg_left h (mul_nonneg hSpi hSpj))
  · intro h
    rw [INB_i_j_k_M_eq p lam q_g c_Rx c_i c_j c_k h_i h_j h_k
        Se_i Se_j Se_k Sp_i Sp_j Sp_k p_Rx,
      INB_i_j_k_M_eq p lam q_g c_Rx c_i c_j c_k h_i h_j h_k
        Se_i Se_j Se_k' Sp_i Sp_j Sp_k p_Rx]
    refine INB_q_mono_Se _ _ _ _ _ _ _ _ _ _ hb hRx0 hRx1 ?_
    have w : (0:ℚ) ≤ Se_i * (1 - Se_j) + Se_j * (1 - Se_i) :=
      add_nonneg (mul_nonneg hSei (by linarith)) (mul_nonneg hSej (by linarith))
    nlinarith [mul_nonneg w (sub_nonneg.2 h)]
  · intro h
    rw [INB_i_j_k_M_eq p lam q_g c_Rx c_i c_j c_k h_i h_j h_k
        Se_i Se_j Se_k Sp_i Sp_j Sp_k p_Rx,
      INB_i_j_k_M_eq p lam q_g c_Rx c_i c_j c_k h_i h_j h_k
        Se_i Se_j Se_k Sp_i Sp_j Sp_k' p_Rx]
    refine INB_q_mono_Sp _ _ _ _ _ _ _ _ _ _ hb hRx0 hRx1 ?_
    have w : (0:ℚ) ≤ Sp_i * (1 - Sp_j) + Sp_j * (1 - Sp_i) :=
      add_nonneg (mul_nonneg hSpi (by linarith)) (mul_nonneg hSpj (by linarith))
    nlinarith [mul_nonneg w (sub_nonneg.2 h)]

/-- Witness for C9 (amended): concrete instance of the single-test
monotonicity in `Se` at `p = 1/4`, `Se` raised from `4/5` to `9/10`. -/
theorem INB_monotone_amended_witness :
    (INB (1/4) 1 1 0 (1/10) 0 (4/5) (4/5) (1/2)).q ≤
      (INB (1/4) 1 1 0 (1/10) 0 (9/10) (4/5) (1/2)).q :=
  (INB_monotone_amended (1/4) 1 1 0 (1/10) (1/10) (1/10) 0 0 0
    (4/5) (4/5) (4/5) (4/5) (4/5) (4/5) (9/10) (9/10) (9/10) (9/10) (9/10) (9/10)
    (1/2) (by norm_num) (by norm_num) (by norm_num) (by norm_num) (by norm_num)
    (by norm_num) (by norm_num) (by norm_num) (by norm_num) (by norm_num)
    (by norm_num)).1 (by norm_num)
